import Mathlib

/-!
# AI Fashion Studio — verification of the client-side orchestration core

Shallow embedding of the request orchestration of the "AI Fashion Studio"
front end: the Generation Gateway response validation (`services/geminiService`),
the upload-intake image resizing, the lookbook orchestrator (`App.tsx`,
`handleGenerate` / `handleEdit`), and the live-session playback scheduler
(`LiveChat`).  Asynchronous completions (Gateway call results, variant settle
order) are passed in explicitly as oracle parameters; state updates are modelled
by explicit state passing, and the observable actions of a run (calls issued,
settlements, the loading flag being cleared) are recorded in an event trace.
-/

namespace FashionStudio

/-! ## Generation Gateway: wire format of `generateContent` responses

Mirrors the fields read by `generateTryOnImage` and `editImage`
(services/geminiService): `promptFeedback.blockReason`,
`promptFeedback.safetyRatings`, `candidates[0].finishReason`,
`candidates[0].safetyRatings`, `candidates[0].content.parts` with
`part.inlineData.data / .mimeType` and `part.text`.  Optional wire fields are
`Option`s. -/

/-- A safety rating as read from the wire (`r.category`, `r.probability`). -/
structure SafetyRating where
  category : String
  probability : String
deriving DecidableEq, Repr

/-- Inline binary data of a content part (`part.inlineData`). -/
structure InlineData where
  data : String
  mimeType : String
deriving DecidableEq, Repr

/-- One content part: may carry `inlineData` and/or `text`. -/
structure ContentPart where
  inlineData : Option InlineData
  text : Option String
deriving DecidableEq, Repr

/-- `candidate.content`: carries the optional `parts` list. -/
structure Content where
  parts : Option (List ContentPart)
deriving DecidableEq, Repr

/-- A response candidate: `finishReason`, `safetyRatings`, `content`. -/
structure Candidate where
  finishReason : Option String
  safetyRatings : Option (List SafetyRating)
  content : Option Content
deriving DecidableEq, Repr

/-- `response.promptFeedback`: `blockReason` and `safetyRatings`. -/
structure PromptFeedback where
  blockReason : Option String
  safetyRatings : Option (List SafetyRating)
deriving DecidableEq, Repr

/-- A `generateContent` response as read by the Gateway. -/
structure GenerateContentResponse where
  promptFeedback : Option PromptFeedback
  candidates : Option (List Candidate)
deriving DecidableEq, Repr

/-- The error taxonomy of the Gateway's result validation.  Each constructor
stands for one of the distinct Vietnamese error messages thrown by the source;
the messages themselves are user-facing strings, the kind is what the spec
names. -/
inductive GenError where
  | ContentBlocked (reason : String) (category : Option String)
  | EmptyResult
  | SafetyBlocked (category : Option String)
  | TruncatedByLength
  | RecitationBlocked
  | NoImageProduced
  | IncompleteGeneration (reason : String)
  | UnexpectedTextResponse (text : String)
deriving DecidableEq, Repr

/-- JavaScript string truthiness for an optional string field: `undefined` and
`""` are both falsy.  Used wherever the source guards on a string field
(`if (response.promptFeedback?.blockReason)`,
`if (candidate.finishReason && ...)`, `if (part.text)`, `if (!image?.imageBytes)`). -/
def truthyStr : Option String → Option String
  | some s => if s = "" then none else some s
  | none => none

/-- `safetyRatings?.find(r => r.probability !== 'NEGLIGIBLE' && r.probability !== 'LOW')`,
projected to the category that the error message reports. -/
def findHarmfulCategory (rs : Option (List SafetyRating)) : Option String :=
  ((rs.getD []).find? fun r =>
    decide (r.probability ≠ "NEGLIGIBLE") && decide (r.probability ≠ "LOW")).map
    (fun r => r.category)

/-- The first part of the `for (const part of candidate.content.parts)` loop
that carries `inlineData` (`if (part.inlineData)`). -/
def findImagePart : List ContentPart → Option InlineData
  | [] => none
  | p :: ps =>
    match p.inlineData with
    | some d => some d
    | none => findImagePart ps

/-- The first part of the second loop that carries truthy `text`
(`if (part.text)`: an empty string is falsy). -/
def findTextPart : List ContentPart → Option String
  | [] => none
  | p :: ps =>
    match truthyStr p.text with
    | some t => some t
    | none => findTextPart ps

/-- The data-URL assembled from a returned inline-data part:
`data:{mimeType};base64,{data}`. -/
def dataUrl (d : InlineData) : String :=
  "data:" ++ d.mimeType ++ ";base64," ++ d.data

/-- The `switch (candidate.finishReason)` arms mapping a non-accepted finish
reason to its error kind (`SAFETY`, `MAX_TOKENS`, `RECITATION`, `NO_IMAGE`,
wildcard default). -/
def finishReasonError (c : Candidate) (fr : String) : GenError :=
  if fr = "SAFETY" then GenError.SafetyBlocked (findHarmfulCategory c.safetyRatings)
  else if fr = "MAX_TOKENS" then GenError.TruncatedByLength
  else if fr = "RECITATION" then GenError.RecitationBlocked
  else if fr = "NO_IMAGE" then GenError.NoImageProduced
  else GenError.IncompleteGeneration fr

/-- `candidate.content?.parts`. -/
def candidateParts (c : Candidate) : Option (List ContentPart) :=
  c.content.bind (fun ct => ct.parts)

/-- The content-part scan of the source after the finish-reason gate:
`if (!candidate.content?.parts?.length)` fails (EmptyResult kind: "AI không trả
về nội dung hợp lệ"), the first inline-data part returns a data URL, otherwise
the first truthy text part fails with the returned-text error, otherwise the
final "Không nhận được ảnh từ AI" failure (EmptyResult kind). -/
def checkParts (c : Candidate) : Except GenError String :=
  match candidateParts c with
  | none => Except.error GenError.EmptyResult
  | some parts =>
    if parts.length = 0 then Except.error GenError.EmptyResult
    else
      match findImagePart parts with
      | some d => Except.ok (dataUrl d)
      | none =>
        match findTextPart parts with
        | some t => Except.error (GenError.UnexpectedTextResponse t)
        | none => Except.error GenError.EmptyResult

/-- The result-validation block shared verbatim (modulo message strings) by
`generateTryOnImage` and `editImage` in services/geminiService: block-reason
gate, `candidates?.[0]` presence, the accepted finish-reason set
`{'STOP', 'FINISH_REASON_UNSPECIFIED'}` guarded by truthiness, then the
content-part scan. -/
def validateGenerateContentResponse (r : GenerateContentResponse) :
    Except GenError String :=
  match truthyStr (r.promptFeedback.bind (fun pf => pf.blockReason)) with
  | some reason =>
    Except.error (GenError.ContentBlocked reason
      (findHarmfulCategory (r.promptFeedback.bind (fun pf => pf.safetyRatings))))
  | none =>
    match (r.candidates.getD []).head? with
    | none => Except.error GenError.EmptyResult
    | some candidate =>
      match truthyStr candidate.finishReason with
      | some fr =>
        if fr = "STOP" ∨ fr = "FINISH_REASON_UNSPECIFIED" then checkParts candidate
        else Except.error (finishReasonError candidate fr)
      | none => checkParts candidate

/-- Response handling of `generateTryOnImage` (operation (2),
`generateFromReferences`). -/
def generateTryOnImageResult (r : GenerateContentResponse) : Except GenError String :=
  validateGenerateContentResponse r

/-- Response handling of `editImage` (operation (3)). -/
def editImageResult (r : GenerateContentResponse) : Except GenError String :=
  validateGenerateContentResponse r

/-! ## Generation Gateway: the `generateImages` endpoint

`generateImageFromText` calls `ai.models.generateImages` (Imagen), whose
response carries only `generatedImages`, with no `promptFeedback`, no
`candidates`, no finish reason and no content parts (the source even notes that
a `promptFeedback` check had to be removed because the field does not exist on
`GenerateImagesResponse`). -/

/-- `generatedImages[i].image` (`imageBytes` optional). -/
structure ImagenImage where
  imageBytes : Option String
deriving DecidableEq, Repr

/-- One entry of `response.generatedImages`. -/
structure GeneratedImage where
  image : Option ImagenImage
deriving DecidableEq, Repr

/-- A `generateImages` response as read by `generateImageFromText`. -/
structure GenerateImagesResponse where
  generatedImages : Option (List GeneratedImage)
deriving DecidableEq, Repr

/-- Response handling of `generateImageFromText` (operation (1),
`generateFromText`): `response.generatedImages?.[0]` must be present
and carry truthy `image.imageBytes`; both failures are EmptyResult-kind
messages ("AI không trả về kết quả hình ảnh ..."), and the success value is a
JPEG data URL. -/
def generateImageFromTextResult (r : GenerateImagesResponse) :
    Except GenError String :=
  match (r.generatedImages.getD []).head? with
  | none => Except.error GenError.EmptyResult
  | some result =>
    match truthyStr (result.image.bind (fun im => im.imageBytes)) with
    | none => Except.error GenError.EmptyResult
    | some b => Except.ok ("data:image/jpeg;base64," ++ b)

/-- Step (d) of the spec's algorithm: ordered part scan, image first, else
text, else empty. -/
def specPartScan (c : Candidate) : Except GenError String :=
  match findImagePart ((candidateParts c).getD []) with
  | some d => Except.ok (dataUrl d)
  | none =>
    match findTextPart ((candidateParts c).getD []) with
    | some t => Except.error (GenError.UnexpectedTextResponse t)
    | none => Except.error GenError.EmptyResult

/-- The shared result-classification algorithm exactly as the spec words it for
operations (1)–(3): (a) explicit block reason fails with ContentBlocked
(category when present); (b) no candidate fails with EmptyResult; (c) a finish
reason outside the accepted set maps to its specific error kind; (d) the parts
are scanned in order — first binary-image part succeeds, else a text part fails
with UnexpectedTextResponse, else EmptyResult. -/
def specValidateImageResponse (r : GenerateContentResponse) :
    Except GenError String :=
  match truthyStr (r.promptFeedback.bind (fun pf => pf.blockReason)) with
  | some reason =>
    Except.error (GenError.ContentBlocked reason
      (findHarmfulCategory (r.promptFeedback.bind (fun pf => pf.safetyRatings))))
  | none =>
    match (r.candidates.getD []).head? with
    | none => Except.error GenError.EmptyResult
    | some candidate =>
      match truthyStr candidate.finishReason with
      | some fr =>
        if fr = "STOP" ∨ fr = "FINISH_REASON_UNSPECIFIED" then
          specPartScan candidate
        else Except.error (finishReasonError candidate fr)
      | none => specPartScan candidate

/-! ## Lookbook Orchestrator (`App.tsx`)

`handleGenerate` / `handleEdit` over the state pieces the claims are about:
`generatedImages`, `isLoading`, `isEditing`, `error`, `history`.  The source
declares `type ImageState = string | 'loading' | 'error' | null`; in the slot
array a slot is always one of the sentinel strings `'loading'` / `'error'` or a
data-URL string, modelled by an inductive type.  Gateway call outcomes are
oracle parameters (`Except` of the thrown message or the returned data URL);
the settle order of the three concurrent variant promises is an oracle
permutation of `[1, 2, 3]`. -/

/-- A lookbook slot value as stored in `generatedImages`: the `'loading'`
sentinel, the `'error'` sentinel, or a data-URL string (a Ready image). -/
inductive ImageState where
  | loading
  | failed
  | ready (src : String)
deriving DecidableEq, Repr

/-- The orchestrator state pieces used by `handleGenerate` / `handleEdit`. -/
structure AppState where
  generatedImages : List ImageState
  isLoading : Bool
  isEditing : Bool
  error : Option String
  history : List String
deriving DecidableEq, Repr

/-- Decidable equality of call outcomes (`Except` carries no such instance in
this toolchain). -/
instance {ε α : Type} [DecidableEq ε] [DecidableEq α] :
    DecidableEq (Except ε α) := fun x y =>
  match x, y with
  | Except.ok a, Except.ok b =>
    if h : a = b then isTrue (by rw [h]) else isFalse (by simp [h])
  | Except.ok _, Except.error _ => isFalse (by simp)
  | Except.error _, Except.ok _ => isFalse (by simp)
  | Except.error e, Except.error f =>
    if h : e = f then isTrue (by rw [h]) else isFalse (by simp [h])

/-- Observable actions of one `handleGenerate` run, in program order:
`setIsLoading(true)`, the base Gateway call and its settlement, each variant
`editImage` call and its settlement, and the `finally` clause clearing the
loading flag. -/
inductive GenEvent where
  | loadingStarted
  | baseCall
  | baseSettled (r : Except String String)
  | variantCall (slot : Nat)
  | variantSettled (slot : Nat) (r : Except String String)
  | loadingCleared
deriving DecidableEq, Repr

/-- The validation message of `handleGenerate` when no image is uploaded and
the description is empty. -/
def validationMsg : String :=
  "Vui lòng tải lên ít nhất một ảnh hoặc nhập mô tả."

/-- `setGeneratedImages(isLookbookMode ? Array(4).fill('loading') : ['loading'])`. -/
def initialSlots (isLookbookMode : Bool) : List ImageState :=
  if isLookbookMode then List.replicate 4 ImageState.loading
  else [ImageState.loading]

/-- `setHistory(prev => [img, ...prev].slice(0, 5))`. -/
def pushHistory (img : String) (h : List String) : List String :=
  (img :: h).take 5

/-- The slot value a settled variant promise writes: the variation image on
success (`newImages[i] = variationImage`), the `'error'` sentinel in the
`.catch` handler. -/
def resultSlot : Except String String → ImageState
  | Except.ok img => ImageState.ready img
  | Except.error _ => ImageState.failed

/-- Folding the settled variant promises over the slot array in their settle
order: each completion handler performs `newImages[i] = ...` on its own index
only (modelled by `List.set`). -/
def applyVariantSettles (variantResults : Nat → Except String String) :
    List ImageState → List Nat → List ImageState
  | imgs, [] => imgs
  | imgs, i :: rest =>
    applyVariantSettles variantResults
      (imgs.set i (resultSlot (variantResults i))) rest

/-- `handleGenerate` (App.tsx:292-344).  `uploadedCount` is the number of
non-null entries of `originalImages`; `baseResult` is the outcome of
`generateBaseImage` (which calls `generateTryOnImage` when `uploadedCount > 0`,
else `generateImageFromText`); `variantResults i` is the outcome of the
variant-`i` `editImage` call; `settleOrder` is the order in which the three
variant promises settle (a permutation of `[1, 2, 3]` — only consulted in
lookbook mode).  Returns the final state and the event trace. -/
def handleGenerate (s : AppState) (uploadedCount : Nat)
    (modelDescription : String) (isLookbookMode : Bool)
    (baseResult : Except String String)
    (variantResults : Nat → Except String String)
    (settleOrder : List Nat) : AppState × List GenEvent :=
  if uploadedCount = 0 ∧ modelDescription = "" then
    ({ s with error := some validationMsg }, [])
  else
    let s1 : AppState :=
      { s with error := none, isLoading := true,
               generatedImages := initialSlots isLookbookMode }
    match baseResult with
    | Except.error msg =>
      ({ s1 with error := some msg, generatedImages := [], isLoading := false },
       [GenEvent.loadingStarted, GenEvent.baseCall,
        GenEvent.baseSettled (Except.error msg), GenEvent.loadingCleared])
    | Except.ok baseImage =>
      let s2 : AppState :=
        { s1 with
          generatedImages := s1.generatedImages.set 0 (ImageState.ready baseImage),
          history := pushHistory baseImage s1.history }
      if isLookbookMode then
        ({ s2 with
           generatedImages :=
             applyVariantSettles variantResults s2.generatedImages settleOrder,
           isLoading := false },
         [GenEvent.loadingStarted, GenEvent.baseCall,
          GenEvent.baseSettled (Except.ok baseImage),
          GenEvent.variantCall 1, GenEvent.variantCall 2, GenEvent.variantCall 3]
         ++ settleOrder.map (fun i => GenEvent.variantSettled i (variantResults i))
         ++ [GenEvent.loadingCleared])
      else
        ({ s2 with isLoading := false },
         [GenEvent.loadingStarted, GenEvent.baseCall,
          GenEvent.baseSettled (Except.ok baseImage), GenEvent.loadingCleared])

/-- `imageToEdit` (App.tsx:116): `generatedImages.length > 0 &&
typeof generatedImages[0] === 'string' ? generatedImages[0] : null`.  Every
non-null slot value is a string in the source — the sentinels included — so the
guard accepts any non-null slot 0 and yields its string value. -/
def imageToEdit : List ImageState → Option String
  | ImageState.ready src :: _ => some src
  | ImageState.loading :: _ => some "loading"
  | ImageState.failed :: _ => some "error"
  | [] => none

/-- Observable actions of one `handleEdit` run: the `editImage` Gateway call
(source data-URL string, prompt, optional face source) and its settlement. -/
inductive EditEvent where
  | editCall (base : String) (prompt : String) (faceSource : Option String)
  | editSettled (r : Except String String)
deriving DecidableEq, Repr

/-- `handleEdit` (App.tsx:346-366).  Guard: `if (!imageToEdit || !editPrompt)
return;` is a silent early return.  Otherwise the run clears the error, issues
the `editImage` call (the base64/mime destructuring of the data URL is payload
formatting the claims do not touch), and on success replaces the whole slot
array with the single edited image and pushes it onto the history; on failure
it records the thrown message.  `setIsEditing` is true during the run and reset
in `finally`, so it is false in the returned (settled) state.  The source also
clears the prompt input field afterwards (UI state outside `AppState`). -/
def handleEdit (s : AppState) (editPrompt : String)
    (faceSource : Option String) (editResult : Except String String) :
    AppState × List EditEvent :=
  match imageToEdit s.generatedImages with
  | none => (s, [])
  | some base =>
    if editPrompt = "" then (s, [])
    else
      match editResult with
      | Except.ok resultImage =>
        ({ s with error := none, isEditing := false,
                  generatedImages := [ImageState.ready resultImage],
                  history := pushHistory resultImage s.history },
         [EditEvent.editCall base editPrompt faceSource,
          EditEvent.editSettled (Except.ok resultImage)])
      | Except.error msg =>
        ({ s with error := some msg, isEditing := false },
         [EditEvent.editCall base editPrompt faceSource,
          EditEvent.editSettled (Except.error msg)])

/-- History content after a chronological sequence of successful results,
starting from the initial empty history: each success folds one
`pushHistory`. -/
def historyAfter (results : List String) : List String :=
  results.foldl (fun h r => pushHistory r h) []

/-! ## Live Session Orchestrator (`LiveChat`): playback scheduling

The `onmessage` handler schedules inline audio against the
`nextStartTimeRef` watermark (LiveChat, part_002:114-130):
`nextStartTime = max(nextStartTime, ctx.currentTime)`,
`source.start(nextStartTime)`, `nextStartTime += buffer.duration`.
The spec models message handling as one sequential loop in arrival order;
times are rationals. -/

/-- One inbound audio chunk: the output context's clock at handling time and
the decoded buffer's duration. -/
structure AudioChunk where
  currentTime : ℚ
  duration : ℚ
deriving DecidableEq, Repr

/-- Scheduling one chunk: returns its playback start time and the advanced
watermark. -/
def scheduleChunk (w : ℚ) (c : AudioChunk) : ℚ × ℚ :=
  (max w c.currentTime, max w c.currentTime + c.duration)

/-- Start times assigned to a sequence of inbound chunks handled in arrival
order, threading the watermark. -/
def scheduleAll (w : ℚ) : List AudioChunk → List ℚ
  | [] => []
  | c :: cs => (scheduleChunk w c).1 :: scheduleAll (scheduleChunk w c).2 cs

/-! ## Upload Intake: `resizeImageBlob` (services/geminiService)

Dimension arithmetic of the canvas downscale: if the longer side exceeds
`maxSize` it becomes `maxSize` and the other side is
`Math.round(other * maxSize / longer)`; then the canvas is re-encoded with
`canvas.toBlob(..., 'image/jpeg', 0.9)`. -/

/-- `Math.round (num / den)` for nonnegative operands: round half up,
`⌊num / den + 1 / 2⌋`. -/
def jsRound (num den : Nat) : Nat := (2 * num + den) / (2 * den)

/-- The width/height computation of `resizeImageBlob`. -/
def resizeDims (width height maxSize : Nat) : Nat × Nat :=
  if height < width then
    if maxSize < width then (maxSize, jsRound (height * maxSize) width)
    else (width, height)
  else
    if maxSize < height then (jsRound (width * maxSize) height, maxSize)
    else (width, height)

/-- The fixed re-encoding target of `canvas.toBlob`. -/
def resizeOutputMimeType : String := "image/jpeg"

/-- The fixed re-encoding quality factor of `canvas.toBlob`. -/
def resizeOutputQuality : ℚ := 9 / 10

/-- The fixed maximum dimension passed to `resizeImageBlob` by both
`fileToBase64` and `imageUrlToBase64`. -/
def maxUploadDimension : Nat := 1024

/-! ## Fixtures used by witness theorems -/

/-- Fixture: the initial orchestrator state (no slots, idle, no error, empty
history). -/
def initialState : AppState :=
  { generatedImages := [], isLoading := false, isEditing := false,
    error := none, history := [] }

/-- Fixture: variant-call outcomes where variant 2 fails and the others
succeed. -/
def sampleVariantResults : Nat → Except String String := fun i =>
  if i = 2 then Except.error "variant failed" else Except.ok "data:v"

/-- Fixture: a state holding exactly one Ready slot. -/
def readyState : AppState :=
  { generatedImages := [ImageState.ready "data:image/jpeg;base64,abc"],
    isLoading := false, isEditing := false, error := none, history := [] }

/-- Fixture: a content part carrying inline image data. -/
def samplePart : ContentPart :=
  { inlineData := some { data := "IMG", mimeType := "image/png" }, text := none }

/-- Fixture: a candidate carrying no finish reason and one inline-image
part. -/
def sampleCandidate : Candidate :=
  { finishReason := none, safetyRatings := none,
    content := some { parts := some [samplePart] } }

/-- Fixture: a successful `generateImages` response carrying one image. -/
def sampleImagesResponse : GenerateImagesResponse :=
  { generatedImages := some [{ image := some { imageBytes := some "QUJD" } }] }

/-- The `generateImages` wire fields seen through the `generateContent`
response shape: the endpoint returns neither `promptFeedback` nor
`candidates` (the source removed the `promptFeedback` check because the field
does not exist on `GenerateImagesResponse`). -/
def imagesResponseAsContentResponse (_r : GenerateImagesResponse) :
    GenerateContentResponse :=
  { promptFeedback := none, candidates := none }

/-! ## Helper lemmas: Gateway validation -/

/-- The source's part handling (explicit empty-parts gate before the scan) and
the spec's step (d) classify every candidate identically. -/
theorem checkParts_eq_specPartScan (c : Candidate) :
    checkParts c = specPartScan c := by
  unfold checkParts specPartScan
  cases h : candidateParts c with
  | none => rfl
  | some parts =>
    cases parts with
    | nil => rfl
    | cons p ps => rfl

/-- The shared validation block of `generateTryOnImage` / `editImage` agrees
with the spec's ordered algorithm on every response. -/
theorem validate_eq_spec (r : GenerateContentResponse) :
    validateGenerateContentResponse r = specValidateImageResponse r := by
  unfold validateGenerateContentResponse specValidateImageResponse
  split
  · rfl
  · split
    · rfl
    · split
      · split
        · exact checkParts_eq_specPartScan _
        · rfl
      · exact checkParts_eq_specPartScan _

/-- Validation with no truthy block reason and head candidate `c` reduces to
the finish-reason gate on `c`. -/
theorem validate_of_no_block (r : GenerateContentResponse) (c : Candidate)
    (h1 : truthyStr (r.promptFeedback.bind fun x => x.blockReason) = none)
    (h2 : (r.candidates.getD []).head? = some c) :
    validateGenerateContentResponse r =
      match truthyStr c.finishReason with
      | some fr =>
        if fr = "STOP" ∨ fr = "FINISH_REASON_UNSPECIFIED" then checkParts c
        else Except.error (finishReasonError c fr)
      | none => checkParts c := by
  unfold validateGenerateContentResponse
  rw [h1, h2]

/-! ## Claim theorems -/

/-- C1 (counterexample): the claim asserts that `generateImageFromText` also
classifies its result by the shared ordered algorithm.  On a successful
`generateImages` response — which carries no `candidates` field — the shared
algorithm's step (b) would fail with EmptyResult, but the operation returns the
image, so the claim is false for that operation. -/
theorem textGen_not_shared_algorithm_cex :
    generateImageFromTextResult sampleImagesResponse
        = Except.ok "data:image/jpeg;base64,QUJD" ∧
    specValidateImageResponse
        (imagesResponseAsContentResponse sampleImagesResponse)
        = Except.error GenError.EmptyResult ∧
    Except.ok "data:image/jpeg;base64,QUJD"
        ≠ (Except.error GenError.EmptyResult : Except GenError String) := by
  refine ⟨rfl, rfl, ?_⟩
  intro h
  exact Except.noConfusion h

/-- C1 (amended): `generateFromReferences` (`generateTryOnImage`) and
`editImage` classify their result exactly by the spec's ordered algorithm —
block reason, then candidate presence, then the accepted finish-reason set,
then the image-first / text / empty part scan — while `generateFromText`
(`generateImageFromText`) uses the separate `generateImages` endpoint and
either returns the first generated image's bytes as a JPEG data URL or fails
with EmptyResult, with no block-reason, finish-reason or part-scan
classification. -/
theorem gateway_validation_classification :
    (∀ r : GenerateContentResponse,
        generateTryOnImageResult r = specValidateImageResponse r ∧
        editImageResult r = specValidateImageResponse r) ∧
    (∀ r : GenerateImagesResponse,
        (∃ b, generateImageFromTextResult r
            = Except.ok ("data:image/jpeg;base64," ++ b)) ∨
        generateImageFromTextResult r = Except.error GenError.EmptyResult) := by
  constructor
  · intro r
    exact ⟨validate_eq_spec r, validate_eq_spec r⟩
  · intro r
    unfold generateImageFromTextResult
    split
    · exact Or.inr rfl
    · split
      · exact Or.inr rfl
      · exact Or.inl ⟨_, rfl⟩

/-- C10: in `generateTryOnImage` and `editImage`, a candidate whose
`finishReason` is absent passes the finish-reason gate: validation proceeds
directly to the content-part scan (`checkParts`), exactly as it does when the
finish reason is the accepted `STOP`. -/
theorem absent_finish_reason_accepted (pf : Option PromptFeedback)
    (c : Candidate) (rest : List Candidate)
    (hpf : truthyStr (pf.bind fun x => x.blockReason) = none)
    (hfr : c.finishReason = none) :
    generateTryOnImageResult ⟨pf, some (c :: rest)⟩ = checkParts c ∧
    editImageResult ⟨pf, some (c :: rest)⟩ = checkParts c ∧
    generateTryOnImageResult
        ⟨pf, some ({ c with finishReason := some "STOP" } :: rest)⟩
      = checkParts c := by
  have hA : validateGenerateContentResponse ⟨pf, some (c :: rest)⟩
      = checkParts c := by
    have key := validate_of_no_block ⟨pf, some (c :: rest)⟩ c hpf rfl
    rw [hfr] at key
    exact key
  have hB : validateGenerateContentResponse
      ⟨pf, some ({ c with finishReason := some "STOP" } :: rest)⟩
      = checkParts c := by
    have key := validate_of_no_block
      ⟨pf, some ({ c with finishReason := some "STOP" } :: rest)⟩
      { c with finishReason := some "STOP" } hpf rfl
    exact key
  exact ⟨hA, hA, hB⟩

/-! ## Helper lemmas: lookbook orchestrator -/

/-- A settled variant never leaves its slot Loading. -/
theorem resultSlot_ne_loading (r : Except String String) :
    resultSlot r ≠ ImageState.loading := by
  cases r <;> simp [resultSlot]

/-- Settling variant promises preserves the slot-array length. -/
theorem length_applyVariantSettles (vr : Nat → Except String String) :
    ∀ (order : List Nat) (imgs : List ImageState),
      (applyVariantSettles vr imgs order).length = imgs.length := by
  intro order
  induction order with
  | nil => intro imgs; rfl
  | cons i rest ih =>
    intro imgs
    rw [applyVariantSettles, ih, List.length_set]

/-- Pointwise description of the slot array after settling the variant
promises in any order: a slot named by the order holds its own variant's
outcome, every other slot is untouched. -/
theorem getElem?_applyVariantSettles (vr : Nat → Except String String) :
    ∀ (order : List Nat) (imgs : List ImageState) (j : Nat),
      (applyVariantSettles vr imgs order)[j]? =
        if j ∈ order ∧ j < imgs.length then some (resultSlot (vr j))
        else imgs[j]? := by
  intro order
  induction order with
  | nil =>
    intro imgs j
    simp [applyVariantSettles]
  | cons i rest ih =>
    intro imgs j
    rw [applyVariantSettles, ih, List.length_set, List.getElem?_set]
    by_cases h2 : j < imgs.length
    · by_cases h1 : j ∈ rest
      · simp [h1, h2, List.mem_cons]
      · by_cases h3 : i = j
        · subst h3
          simp [h1, h2, List.mem_cons]
        · have h4 : ¬(j = i) := fun h => h3 h.symm
          simp [h1, h2, h3, h4, List.mem_cons]
    · have hle : imgs.length ≤ j := Nat.le_of_not_lt h2
      by_cases h3 : i = j
      · subst h3
        simp [h2, List.getElem?_eq_none hle]
      · simp [h2, h3, List.getElem?_eq_none hle]

/-- The lookbook slot array after base success and all three variant
settlements, for any settle order. -/
theorem applyVariantSettles_lookbook (vr : Nat → Except String String)
    (b : String) (order : List Nat) (hperm : order.Perm [1, 2, 3]) :
    applyVariantSettles vr ((initialSlots true).set 0 (ImageState.ready b))
        order =
      [ImageState.ready b, resultSlot (vr 1), resultSlot (vr 2),
       resultSlot (vr 3)] := by
  have hmem : ∀ j : Nat, j ∈ order ↔ j ∈ ([1, 2, 3] : List Nat) :=
    fun j => hperm.mem_iff
  have hbase : (initialSlots true).set 0 (ImageState.ready b)
      = [ImageState.ready b, ImageState.loading, ImageState.loading,
         ImageState.loading] := rfl
  apply List.ext_getElem?
  intro n
  rw [getElem?_applyVariantSettles, hbase]
  match n with
  | 0 =>
    rw [if_neg (fun hc => by have := (hmem 0).mp hc.1; simp at this)]
    rfl
  | 1 =>
    rw [if_pos ⟨(hmem 1).mpr (by simp), by simp⟩]
    rfl
  | 2 =>
    rw [if_pos ⟨(hmem 2).mpr (by simp), by simp⟩]
    rfl
  | 3 =>
    rw [if_pos ⟨(hmem 3).mpr (by simp), by simp⟩]
    rfl
  | (m + 4) =>
    rw [if_neg (fun hc => by have := (hmem (m + 4)).mp hc.1; simp at this),
      List.getElem?_eq_none (by show 4 ≤ m + 4; omega),
      List.getElem?_eq_none (by show 4 ≤ m + 4; omega)]

/-- Unfolding `handleGenerate` on a failed base call. -/
theorem handleGenerate_base_error (s : AppState) (u : Nat) (d : String)
    (lb : Bool) (msg : String) (vr : Nat → Except String String)
    (order : List Nat) (hval : ¬(u = 0 ∧ d = "")) :
    handleGenerate s u d lb (Except.error msg) vr order =
      ({ s with
          error := some msg,
          isLoading := false,
          generatedImages := [] },
       [GenEvent.loadingStarted, GenEvent.baseCall,
        GenEvent.baseSettled (Except.error msg), GenEvent.loadingCleared]) := by
  unfold handleGenerate
  rw [if_neg hval]

/-- Unfolding `handleGenerate` on a successful base call in lookbook mode. -/
theorem handleGenerate_ok_lookbook (s : AppState) (u : Nat) (d b : String)
    (vr : Nat → Except String String) (order : List Nat)
    (hval : ¬(u = 0 ∧ d = "")) :
    handleGenerate s u d true (Except.ok b) vr order =
      ({ s with
          error := none,
          isLoading := false,
          generatedImages := applyVariantSettles vr
            ((initialSlots true).set 0 (ImageState.ready b)) order,
          history := pushHistory b s.history },
       [GenEvent.loadingStarted, GenEvent.baseCall,
        GenEvent.baseSettled (Except.ok b), GenEvent.variantCall 1,
        GenEvent.variantCall 2, GenEvent.variantCall 3]
       ++ order.map (fun i => GenEvent.variantSettled i (vr i))
       ++ [GenEvent.loadingCleared]) := by
  unfold handleGenerate
  rw [if_neg hval]
  rfl

/-- Unfolding `handleGenerate` on a successful base call outside lookbook
mode. -/
theorem handleGenerate_ok_single (s : AppState) (u : Nat) (d b : String)
    (vr : Nat → Except String String) (order : List Nat)
    (hval : ¬(u = 0 ∧ d = "")) :
    handleGenerate s u d false (Except.ok b) vr order =
      ({ s with
          error := none,
          isLoading := false,
          generatedImages := [ImageState.ready b],
          history := pushHistory b s.history },
       [GenEvent.loadingStarted, GenEvent.baseCall,
        GenEvent.baseSettled (Except.ok b), GenEvent.loadingCleared]) := by
  unfold handleGenerate
  rw [if_neg hval]
  rfl

/-- Unfolding `handleEdit` on a single-Ready-slot state, nonempty prompt and a
successful call. -/
theorem handleEdit_ok (s : AppState) (src p : String) (fs : Option String)
    (r : String) (hs : s.generatedImages = [ImageState.ready src])
    (hp : p ≠ "") :
    handleEdit s p fs (Except.ok r) =
      ({ s with
          error := none,
          isEditing := false,
          generatedImages := [ImageState.ready r],
          history := pushHistory r s.history },
       [EditEvent.editCall src p fs,
        EditEvent.editSettled (Except.ok r)]) := by
  simp only [handleEdit, hs, imageToEdit]
  rw [if_neg hp]

/-- C10 witness: `absent_finish_reason_accepted` at a concrete candidate. -/
theorem absent_finish_reason_accepted_witness :
    generateTryOnImageResult ⟨none, some [sampleCandidate]⟩
        = checkParts sampleCandidate ∧
    editImageResult ⟨none, some [sampleCandidate]⟩
        = checkParts sampleCandidate ∧
    generateTryOnImageResult
        ⟨none, some [{ sampleCandidate with finishReason := some "STOP" }]⟩
      = checkParts sampleCandidate :=
  absent_finish_reason_accepted none sampleCandidate [] rfl rfl

/-- C2 (counterexample): the claim asserts that after any settled `generate`
invocation the slot sequence holds exactly one base slot and N variant slots.
In lookbook mode (N = 3) with a failed base call the settled run leaves the
slot sequence empty, not of size 1 + 3. -/
theorem generate_slot_count_cex :
    ((handleGenerate initialState 1 "desc" true (Except.error "boom")
        sampleVariantResults [1, 2, 3]).1.generatedImages).length ≠ 1 + 3 := by
  decide

/-- C2 (amended): provided the base call succeeds, once `generate` settles the
slot sequence holds exactly one base slot (Ready with the base image) and N
variant slots (N = 3 in lookbook mode, else 0), each holding its own variant
call's outcome, no slot is Loading, `isGenerating` is false, and the trace
clears the loading flag last — after the base settlement and after every
variant settlement (join semantics). -/
theorem generate_settles_slots (s : AppState) (u : Nat) (d b : String)
    (lb : Bool) (vr : Nat → Except String String) (order : List Nat)
    (hval : ¬(u = 0 ∧ d = "")) (hperm : order.Perm [1, 2, 3]) :
    (handleGenerate s u d lb (Except.ok b) vr order).1.generatedImages
      = ImageState.ready b ::
        (if lb then [resultSlot (vr 1), resultSlot (vr 2), resultSlot (vr 3)]
         else []) ∧
    (handleGenerate s u d lb (Except.ok b) vr order).1.isLoading = false ∧
    (∀ st ∈ (handleGenerate s u d lb (Except.ok b) vr order).1.generatedImages,
        st ≠ ImageState.loading) ∧
    (∃ tr, (handleGenerate s u d lb (Except.ok b) vr order).2
        = tr ++ [GenEvent.loadingCleared] ∧
      GenEvent.baseSettled (Except.ok b) ∈ tr ∧
      (lb = true → ∀ i ∈ order, GenEvent.variantSettled i (vr i) ∈ tr)) := by
  cases lb with
  | false =>
    rw [handleGenerate_ok_single s u d b vr order hval]
    refine ⟨rfl, rfl, ?_, ?_⟩
    · intro st hst
      simp at hst
      subst hst
      simp
    · refine ⟨[GenEvent.loadingStarted, GenEvent.baseCall,
        GenEvent.baseSettled (Except.ok b)], rfl, by simp, by simp⟩
  | true =>
    rw [handleGenerate_ok_lookbook s u d b vr order hval,
      applyVariantSettles_lookbook vr b order hperm]
    refine ⟨rfl, rfl, ?_, ?_⟩
    · intro st hst
      simp at hst
      rcases hst with h | h | h | h <;> subst h
      · simp
      · exact resultSlot_ne_loading _
      · exact resultSlot_ne_loading _
      · exact resultSlot_ne_loading _
    · refine ⟨[GenEvent.loadingStarted, GenEvent.baseCall,
          GenEvent.baseSettled (Except.ok b), GenEvent.variantCall 1,
          GenEvent.variantCall 2, GenEvent.variantCall 3]
        ++ order.map (fun i => GenEvent.variantSettled i (vr i)),
        rfl, by simp, ?_⟩
      intro _ i hi
      exact List.mem_append_right _ (List.mem_map_of_mem _ hi)

/-- C2 witness: `generate_settles_slots` at a concrete lookbook run whose
variants settle out of order and where variant 2 fails. -/
theorem generate_settles_slots_witness :
    (handleGenerate initialState 1 "desc" true (Except.ok "data:b")
        sampleVariantResults [2, 1, 3]).1.generatedImages
      = ImageState.ready "data:b" ::
        (if true then
          [resultSlot (sampleVariantResults 1), resultSlot (sampleVariantResults 2),
           resultSlot (sampleVariantResults 3)]
         else []) ∧
    (handleGenerate initialState 1 "desc" true (Except.ok "data:b")
        sampleVariantResults [2, 1, 3]).1.isLoading = false ∧
    (∀ st ∈ (handleGenerate initialState 1 "desc" true (Except.ok "data:b")
        sampleVariantResults [2, 1, 3]).1.generatedImages,
        st ≠ ImageState.loading) ∧
    (∃ tr, (handleGenerate initialState 1 "desc" true (Except.ok "data:b")
        sampleVariantResults [2, 1, 3]).2
        = tr ++ [GenEvent.loadingCleared] ∧
      GenEvent.baseSettled (Except.ok "data:b") ∈ tr ∧
      (true = true → ∀ i ∈ ([2, 1, 3] : List Nat),
        GenEvent.variantSettled i (sampleVariantResults i) ∈ tr)) :=
  generate_settles_slots initialState 1 "desc" "data:b" true
    sampleVariantResults [2, 1, 3] (by decide) (by decide)

/-- C3: if the base-image call of `generate` fails, the settled run leaves the
slot sequence empty, `isGenerating` false, exactly the one thrown message as
the surfaced error, and its trace contains no variant call at all. -/
theorem generate_base_failure_aborts (s : AppState) (u : Nat) (d : String)
    (lb : Bool) (msg : String) (vr : Nat → Except String String)
    (order : List Nat) (hval : ¬(u = 0 ∧ d = "")) :
    (handleGenerate s u d lb (Except.error msg) vr order).1.generatedImages
      = [] ∧
    (handleGenerate s u d lb (Except.error msg) vr order).1.isLoading
      = false ∧
    (handleGenerate s u d lb (Except.error msg) vr order).1.error
      = some msg ∧
    (handleGenerate s u d lb (Except.error msg) vr order).2
      = [GenEvent.loadingStarted, GenEvent.baseCall,
         GenEvent.baseSettled (Except.error msg), GenEvent.loadingCleared] ∧
    (∀ i, GenEvent.variantCall i
        ∉ (handleGenerate s u d lb (Except.error msg) vr order).2) := by
  rw [handleGenerate_base_error s u d lb msg vr order hval]
  refine ⟨rfl, rfl, rfl, rfl, ?_⟩
  intro i
  simp

/-- C3 witness: `generate_base_failure_aborts` at a concrete failed run. -/
theorem generate_base_failure_aborts_witness :
    (handleGenerate initialState 1 "desc" true (Except.error "boom")
        sampleVariantResults [1, 2, 3]).1.generatedImages = [] ∧
    (handleGenerate initialState 1 "desc" true (Except.error "boom")
        sampleVariantResults [1, 2, 3]).1.isLoading = false ∧
    (handleGenerate initialState 1 "desc" true (Except.error "boom")
        sampleVariantResults [1, 2, 3]).1.error = some "boom" ∧
    (handleGenerate initialState 1 "desc" true (Except.error "boom")
        sampleVariantResults [1, 2, 3]).2
      = [GenEvent.loadingStarted, GenEvent.baseCall,
         GenEvent.baseSettled (Except.error "boom"), GenEvent.loadingCleared] ∧
    (∀ i, GenEvent.variantCall i
        ∉ (handleGenerate initialState 1 "desc" true (Except.error "boom")
            sampleVariantResults [1, 2, 3]).2) :=
  generate_base_failure_aborts initialState 1 "desc" true "boom"
    sampleVariantResults [1, 2, 3] (by decide)

/-- C4: each variant completion handler writes only its own slot (the write is
`newImages[i] = ...`, a frame-preserving `set`), so after a lookbook run with a
successful base, slot 0 holds the base image, slot j holds exactly variant j's
own outcome (Ready on success, Failed on error, independent of its siblings),
and variant failures never reach the top-level error, which stays `none`. -/
theorem variant_failures_are_isolated (s : AppState) (u : Nat) (d b : String)
    (vr : Nat → Except String String) (order : List Nat)
    (hval : ¬(u = 0 ∧ d = "")) (hperm : order.Perm [1, 2, 3]) :
    (∀ (imgs : List ImageState) (i j : Nat), j ≠ i →
        (imgs.set i (resultSlot (vr i)))[j]? = imgs[j]?) ∧
    (handleGenerate s u d true (Except.ok b) vr order).1.error = none ∧
    (handleGenerate s u d true (Except.ok b) vr order).1.generatedImages[0]?
      = some (ImageState.ready b) ∧
    (∀ j, j ∈ ([1, 2, 3] : List Nat) →
        (handleGenerate s u d true (Except.ok b) vr order).1.generatedImages[j]?
          = some (resultSlot (vr j))) := by
  refine ⟨?_, ?_⟩
  · intro imgs i j hij
    exact List.getElem?_set_ne (fun h => hij h.symm)
  · rw [handleGenerate_ok_lookbook s u d b vr order hval,
      applyVariantSettles_lookbook vr b order hperm]
    refine ⟨rfl, rfl, ?_⟩
    intro j hj
    simp at hj
    rcases hj with h | h | h <;> subst h <;> rfl

/-- C4 witness: `variant_failures_are_isolated` at a concrete run where
variant 2 fails and variants 1 and 3 succeed. -/
theorem variant_failures_are_isolated_witness :
    (∀ (imgs : List ImageState) (i j : Nat), j ≠ i →
        (imgs.set i (resultSlot (sampleVariantResults i)))[j]? = imgs[j]?) ∧
    (handleGenerate initialState 1 "desc" true (Except.ok "data:b")
        sampleVariantResults [3, 1, 2]).1.error = none ∧
    (handleGenerate initialState 1 "desc" true (Except.ok "data:b")
        sampleVariantResults [3, 1, 2]).1.generatedImages[0]?
      = some (ImageState.ready "data:b") ∧
    (∀ j, j ∈ ([1, 2, 3] : List Nat) →
        (handleGenerate initialState 1 "desc" true (Except.ok "data:b")
            sampleVariantResults [3, 1, 2]).1.generatedImages[j]?
          = some (resultSlot (sampleVariantResults j))) :=
  variant_failures_are_isolated initialState 1 "desc" "data:b"
    sampleVariantResults [3, 1, 2] (by decide) (by decide)

/-- C5 (counterexample): the claim asserts `edit` fails with ValidationError
when the prompt is empty.  With exactly one Ready slot and an empty prompt,
`handleEdit` is a silent no-op: the state is returned unchanged — in
particular no error is surfaced — and no Gateway call is issued. -/
theorem edit_empty_prompt_no_error_cex :
    handleEdit readyState "" none (Except.ok "data:new") = (readyState, []) ∧
    (handleEdit readyState "" none (Except.ok "data:new")).1.error = none := by
  exact ⟨rfl, rfl⟩

/-- C5 (amended): with exactly one Ready slot and a nonempty prompt, a
successful `edit` replaces the entire slot set with a single new slot holding
the edited image (slot-set size 1 after any successful edit); a second edit
with a different prompt again yields a single slot reflecting only the latest
call (its Gateway call takes the first edit's result as base and the new
prompt); with an empty prompt `edit` is a silent no-op (no Gateway call, no
error) rather than failing with ValidationError. -/
theorem edit_single_slot_replacement (s : AppState) (src p1 p2 r1 r2 : String)
    (fs : Option String)
    (hs : s.generatedImages = [ImageState.ready src])
    (hp1 : p1 ≠ "") (hp2 : p2 ≠ "") :
    (handleEdit s p1 fs (Except.ok r1)).1.generatedImages
      = [ImageState.ready r1] ∧
    (handleEdit s p1 fs (Except.ok r1)).2
      = [EditEvent.editCall src p1 fs, EditEvent.editSettled (Except.ok r1)] ∧
    (handleEdit (handleEdit s p1 fs (Except.ok r1)).1 p2 fs
        (Except.ok r2)).1.generatedImages = [ImageState.ready r2] ∧
    (handleEdit (handleEdit s p1 fs (Except.ok r1)).1 p2 fs (Except.ok r2)).2
      = [EditEvent.editCall r1 p2 fs, EditEvent.editSettled (Except.ok r2)] ∧
    handleEdit s "" fs (Except.ok r1) = (s, []) := by
  have h1 := handleEdit_ok s src p1 fs r1 hs hp1
  have hs1 : (handleEdit s p1 fs (Except.ok r1)).1.generatedImages
      = [ImageState.ready r1] := by rw [h1]
  have h2 := handleEdit_ok (handleEdit s p1 fs (Except.ok r1)).1 r1 p2 fs r2
    hs1 hp2
  have hnop : handleEdit s "" fs (Except.ok r1) = (s, []) := by
    simp [handleEdit, hs, imageToEdit]
  exact ⟨hs1, by rw [h1], by rw [h2], by rw [h2], hnop⟩

/-- C5 witness: `edit_single_slot_replacement` at a concrete single-Ready-slot
state and two successive prompts. -/
theorem edit_single_slot_replacement_witness :
    (handleEdit readyState "p1" none (Except.ok "data:r1")).1.generatedImages
      = [ImageState.ready "data:r1"] ∧
    (handleEdit readyState "p1" none (Except.ok "data:r1")).2
      = [EditEvent.editCall "data:image/jpeg;base64,abc" "p1" none,
         EditEvent.editSettled (Except.ok "data:r1")] ∧
    (handleEdit (handleEdit readyState "p1" none (Except.ok "data:r1")).1 "p2"
        none (Except.ok "data:r2")).1.generatedImages
      = [ImageState.ready "data:r2"] ∧
    (handleEdit (handleEdit readyState "p1" none (Except.ok "data:r1")).1 "p2"
        none (Except.ok "data:r2")).2
      = [EditEvent.editCall "data:r1" "p2" none,
         EditEvent.editSettled (Except.ok "data:r2")] ∧
    handleEdit readyState "" none (Except.ok "data:r1") = (readyState, []) :=
  edit_single_slot_replacement readyState "data:image/jpeg;base64,abc"
    "p1" "p2" "data:r1" "data:r2" none rfl (by decide) (by decide)

/-- C6: when no image is uploaded and the description is empty,
`handleGenerate` fails fast with the validation message: the state is changed
only by recording that error — no slot is set to Loading, the loading flag is
untouched — and the empty trace shows no Gateway call was issued. -/
theorem generate_empty_input_validation (s : AppState) (lb : Bool)
    (br : Except String String) (vr : Nat → Except String String)
    (order : List Nat) :
    handleGenerate s 0 "" lb br vr order
      = ({ s with error := some validationMsg }, []) ∧
    (handleGenerate s 0 "" lb br vr order).1.generatedImages
      = s.generatedImages ∧
    (handleGenerate s 0 "" lb br vr order).1.isLoading = s.isLoading ∧
    (handleGenerate s 0 "" lb br vr order).2 = [] := by
  have h : handleGenerate s 0 "" lb br vr order
      = ({ s with error := some validationMsg }, []) := by
    unfold handleGenerate
    rw [if_pos ⟨rfl, rfl⟩]
  exact ⟨h, by rw [h], by rw [h], by rw [h]⟩

/-! ## Helper lemmas: history, playback scheduling, resizing -/

/-- The bounded history fold equals the most-recent-first truncation of the
chronological success list. -/
theorem historyAfter_reverse_take (rs : List String) :
    historyAfter rs = rs.reverse.take 5 := by
  induction rs using List.reverseRecOn with
  | nil => rfl
  | append_singleton rs r ih =>
    rw [historyAfter, List.foldl_append, List.foldl_cons, List.foldl_nil,
      ← historyAfter, ih, List.reverse_append]
    simp [pushHistory, List.take_take]

/-- Scheduling preserves the number of chunks. -/
theorem scheduleAll_length (cs : List AudioChunk) :
    ∀ w : ℚ, (scheduleAll w cs).length = cs.length := by
  induction cs with
  | nil => intro w; rfl
  | cons c cs ih =>
    intro w
    rw [scheduleAll]
    simp [ih]

/-- With nonnegative durations, every assigned start time is at or after the
watermark the schedule started from. -/
theorem scheduleAll_ge_watermark (cs : List AudioChunk) :
    ∀ w : ℚ, (∀ c ∈ cs, 0 ≤ c.duration) →
      ∀ st ∈ scheduleAll w cs, w ≤ st := by
  induction cs with
  | nil =>
    intro w _ st hst
    simp [scheduleAll] at hst
  | cons c cs ih =>
    intro w hd st hst
    rw [scheduleAll] at hst
    rcases List.mem_cons.mp hst with h | h
    · subst h
      exact le_max_left _ _
    · have hw : w ≤ (scheduleChunk w c).2 := by
        have hd0 : 0 ≤ c.duration := hd c (List.mem_cons_self c cs)
        have hmax : w ≤ max w c.currentTime := le_max_left _ _
        simp only [scheduleChunk]
        linarith
      exact le_trans hw (ih (scheduleChunk w c).2
        (fun x hx => hd x (List.mem_cons_of_mem c hx)) st h)

/-- `Math.round ((a * m) / b)` never exceeds `m` when `a ≤ b`. -/
theorem jsRound_le (a b m : Nat) (hab : a ≤ b) (hb : 0 < b) :
    jsRound (a * m) b ≤ m := by
  unfold jsRound
  apply Nat.lt_succ_iff.mp
  rw [Nat.div_lt_iff_lt_mul (by omega : 0 < 2 * b)]
  have h1 : a * m ≤ b * m := Nat.mul_le_mul_right m hab
  nlinarith

/-- C7: in a live session handled as one sequential loop in arrival order, the
playback watermark is monotone: whenever chunk A (position i) arrives before
chunk B (position j), B's scheduled start time is at least A's scheduled start
time plus A's duration. -/
theorem playback_watermark_monotone :
    ∀ (cs : List AudioChunk) (w : ℚ), (∀ c ∈ cs, 0 ≤ c.duration) →
      ∀ i j : Nat, i < j → j < cs.length →
        ∃ si ci sj, (scheduleAll w cs)[i]? = some si ∧ cs[i]? = some ci ∧
          (scheduleAll w cs)[j]? = some sj ∧ si + ci.duration ≤ sj := by
  intro cs
  induction cs with
  | nil =>
    intro w _ i j _ hj
    simp at hj
  | cons c cs ih =>
    intro w hd i j hij hj
    match i, j with
    | 0, j + 1 =>
      have hj2 : j < cs.length := by
        simpa using hj
      have hj3 : j < (scheduleAll (scheduleChunk w c).2 cs).length := by
        rw [scheduleAll_length]
        exact hj2
      refine ⟨(scheduleChunk w c).1, c,
        (scheduleAll (scheduleChunk w c).2 cs).get ⟨j, hj3⟩, ?_,
        List.getElem?_cons_zero, ?_, ?_⟩
      · rw [scheduleAll]
        exact List.getElem?_cons_zero
      · rw [scheduleAll, List.getElem?_cons_succ]
        exact List.getElem?_eq_getElem hj3
      · have hmem : (scheduleAll (scheduleChunk w c).2 cs).get ⟨j, hj3⟩
            ∈ scheduleAll (scheduleChunk w c).2 cs := List.get_mem _ _ hj3
        have hge := scheduleAll_ge_watermark cs (scheduleChunk w c).2
          (fun x hx => hd x (List.mem_cons_of_mem c hx)) _ hmem
        simpa [scheduleChunk] using hge
    | i + 1, j + 1 =>
      have hij2 : i < j := Nat.lt_of_succ_lt_succ hij
      have hj2 : j < cs.length := Nat.lt_of_succ_lt_succ (by simpa using hj)
      obtain ⟨si, ci, sj, h1, h2, h3, h4⟩ := ih (scheduleChunk w c).2
        (fun x hx => hd x (List.mem_cons_of_mem c hx)) i j hij2 hj2
      refine ⟨si, ci, sj, ?_, ?_, ?_, h4⟩
      · rw [scheduleAll, List.getElem?_cons_succ]
        exact h1
      · rw [List.getElem?_cons_succ]
        exact h2
      · rw [scheduleAll, List.getElem?_cons_succ]
        exact h3

/-- Fixture: two inbound audio chunks of durations 1 and 2 arriving at clock
time 0. -/
def sampleChunks : List AudioChunk :=
  [{ currentTime := 0, duration := 1 }, { currentTime := 0, duration := 2 }]

/-- C7 witness: `playback_watermark_monotone` on two concrete chunks. -/
theorem playback_watermark_monotone_witness :
    ∃ si ci sj, (scheduleAll 0 sampleChunks)[0]? = some si ∧
      sampleChunks[0]? = some ci ∧
      (scheduleAll 0 sampleChunks)[1]? = some sj ∧ si + ci.duration ≤ sj :=
  playback_watermark_monotone sampleChunks 0 (by decide) 0 1 (by decide)
    (by decide)

/-- C8: every successful base generation and every successful edit pushes its
result onto the front of the history (`[img, ...prev].slice(0, 5)`); a pushed
history never exceeds 5 entries and starts with the newest result, and after
any chronological sequence of successes the history is exactly the
most-recent-first truncation of that sequence. -/
theorem history_bounded_most_recent_first :
    (∀ (x : String) (h : List String),
        (pushHistory x h).length ≤ 5 ∧ (pushHistory x h).head? = some x) ∧
    (∀ rs : List String, historyAfter rs = rs.reverse.take 5) ∧
    (∀ (s : AppState) (u : Nat) (d b : String) (lb : Bool)
        (vr : Nat → Except String String) (order : List Nat),
        ¬(u = 0 ∧ d = "") →
        (handleGenerate s u d lb (Except.ok b) vr order).1.history
          = pushHistory b s.history) ∧
    (∀ (s : AppState) (src p r : String) (fs : Option String),
        s.generatedImages = [ImageState.ready src] → p ≠ "" →
        (handleEdit s p fs (Except.ok r)).1.history
          = pushHistory r s.history) := by
  refine ⟨?_, historyAfter_reverse_take, ?_, ?_⟩
  · intro x h
    constructor
    · simp [pushHistory]
    · simp [pushHistory]
  · intro s u d b lb vr order hval
    cases lb with
    | false => rw [handleGenerate_ok_single s u d b vr order hval]
    | true => rw [handleGenerate_ok_lookbook s u d b vr order hval]
  · intro s src p r fs hs hp
    rw [handleEdit_ok s src p fs r hs hp]

/-- C8 witness: `history_bounded_most_recent_first` applied at a concrete
successful generation and a concrete successful edit. -/
theorem history_bounded_most_recent_first_witness :
    (handleGenerate initialState 1 "desc" false (Except.ok "data:b")
        sampleVariantResults [1, 2, 3]).1.history
      = pushHistory "data:b" initialState.history ∧
    (handleEdit readyState "p" none (Except.ok "data:r")).1.history
      = pushHistory "data:r" readyState.history :=
  ⟨history_bounded_most_recent_first.2.2.1 initialState 1 "desc" "data:b"
      false sampleVariantResults [1, 2, 3] (by decide),
   history_bounded_most_recent_first.2.2.2 readyState
      "data:image/jpeg;base64,abc" "p" "data:r" none rfl (by decide)⟩

/-- C9: Upload Intake's `resizeImageBlob` with the fixed maximum dimension
1024: an image whose longer side is at most 1024 keeps its dimensions; an
image whose longer side exceeds 1024 is downscaled so the longer side becomes
exactly 1024 and the other side is `Math.round(shorter * 1024 / longer)`
(aspect ratio up to integer rounding); the canvas output is re-encoded as JPEG
with quality factor 0.9. -/
theorem resize_dimension_contract (w h : Nat) :
    (max w h ≤ maxUploadDimension →
      resizeDims w h maxUploadDimension = (w, h)) ∧
    (maxUploadDimension < max w h →
      max (resizeDims w h maxUploadDimension).1
          (resizeDims w h maxUploadDimension).2 = maxUploadDimension ∧
      (h < w → resizeDims w h maxUploadDimension
          = (maxUploadDimension, jsRound (h * maxUploadDimension) w)) ∧
      (w ≤ h → resizeDims w h maxUploadDimension
          = (jsRound (w * maxUploadDimension) h, maxUploadDimension))) ∧
    resizeOutputMimeType = "image/jpeg" ∧
    resizeOutputQuality = 9 / 10 := by
  refine ⟨?_, ?_, rfl, rfl⟩
  · intro hle
    have hw : w ≤ maxUploadDimension := le_trans (le_max_left w h) hle
    have hh : h ≤ maxUploadDimension := le_trans (le_max_right w h) hle
    unfold resizeDims
    split_ifs with h1 h2 h3
    · exact absurd h2 (Nat.not_lt.mpr hw)
    · rfl
    · exact absurd h3 (Nat.not_lt.mpr hh)
    · rfl
  · intro hgt
    unfold resizeDims
    split_ifs with h1 h2 h3
    · have hb : jsRound (h * maxUploadDimension) w ≤ maxUploadDimension :=
        jsRound_le h w maxUploadDimension (le_of_lt h1) (Nat.zero_lt_of_lt h2)
      exact ⟨Nat.max_eq_left hb, fun _ => rfl,
        fun hwh => absurd h1 (Nat.not_lt.mpr hwh)⟩
    · exfalso
      have hmax : max w h = w := Nat.max_eq_left (le_of_lt h1)
      rw [hmax] at hgt
      exact h2 hgt
    · have hb : jsRound (w * maxUploadDimension) h ≤ maxUploadDimension :=
        jsRound_le w h maxUploadDimension (Nat.le_of_not_lt h1)
          (Nat.zero_lt_of_lt h3)
      exact ⟨Nat.max_eq_right hb, fun hlt => absurd hlt h1, fun _ => rfl⟩
    · exfalso
      have hmax : max w h = h := Nat.max_eq_right (Nat.le_of_not_lt h1)
      rw [hmax] at hgt
      exact h3 hgt

/-- C9 witness: `resize_dimension_contract` at a small image (kept) and at a
2048 by 1024 image (downscaled). -/
theorem resize_dimension_contract_witness :
    resizeDims 512 256 maxUploadDimension = (512, 256) ∧
    (max (resizeDims 2048 1024 maxUploadDimension).1
        (resizeDims 2048 1024 maxUploadDimension).2 = maxUploadDimension ∧
     (1024 < 2048 → resizeDims 2048 1024 maxUploadDimension
        = (maxUploadDimension, jsRound (1024 * maxUploadDimension) 2048)) ∧
     (2048 ≤ 1024 → resizeDims 2048 1024 maxUploadDimension
        = (jsRound (2048 * maxUploadDimension) 1024, maxUploadDimension))) :=
  ⟨(resize_dimension_contract 512 256).1 (by decide),
   (resize_dimension_contract 2048 1024).2.1 (by decide)⟩

end FashionStudio
